import Mathlib

/-!
# canal/config.go — configuration construction

A shallow embedding of `src/canal/config.go`: the `DumpConfig` and `Config`
records, the three constructors `NewConfigWithFile`, `NewConfig` and
`NewDefaultConfig`, and the table filter that reads `IncludeTableRegex` and
`ExcludeTableRegex`.

Conventions of the embedding.
* Go `string` is Lean `String`; a `[]string` is a `List String`, the nil slice
  and the empty slice both being `[]`.
* `int` and `time.Duration` are `Int`; `uint32` is a `Nat` reduced `% 2^32`
  wherever the code converts or adds.
* A Go pointer is an `Option`; `nil` is `none`.
* A Go `error` is an `Option` of an error value; `nil` is `none`.
* The packages the file imports but does not define (`io/ioutil`, `toml`,
  `math/rand`, `time`, `mysql`) enter as parameters of the functions that call
  them.
-/

namespace canal

/-! ## Data model (config.go, lines 14-70) -/

/-- Target of a pointer field whose pointee type is declared outside this file
(`*tls.Config`, `*time.Location`); only its identity is kept. -/
structure Handle where
  addr : Nat
  deriving DecidableEq, Repr

/-- Go `DumpConfig` (lines 14-37). -/
structure DumpConfig where
  ExecutionPath : String
  TableDB : String
  Protocol : String
  Where : String
  Tables : List String
  IgnoreTables : List String
  Databases : List String
  ExtraOptions : List String
  MaxAllowedPacketMB : Int
  DiscardErr : Bool
  SkipMasterData : Bool
  deriving DecidableEq, Repr

/-- Go `Config` (lines 39-70). -/
structure Config where
  TLSConfig : Option Handle
  TimestampStringLocation : Option Handle
  User : String
  Password : String
  Charset : String
  Flavor : String
  Addr : String
  IncludeTableRegex : List String
  ExcludeTableRegex : List String
  Dump : DumpConfig
  ReadTimeout : Int
  HeartbeatPeriod : Int
  MaxReconnectAttempts : Int
  ServerID : Nat
  ParseTime : Bool
  SemiSyncEnabled : Bool
  DiscardNoMetaRowEvent : Bool
  DisableRetrySync : Bool
  UseDecimal : Bool
  deriving DecidableEq, Repr

/-- Zero value of `DumpConfig`. -/
def DumpConfig.zero : DumpConfig :=
  { ExecutionPath := "", TableDB := "", Protocol := "", Where := "",
    Tables := [], IgnoreTables := [], Databases := [], ExtraOptions := [],
    MaxAllowedPacketMB := 0, DiscardErr := false, SkipMasterData := false }

/-- Zero value of `Config`: what `var c Config` and `new(Config)` hold. -/
def Config.zero : Config :=
  { TLSConfig := none, TimestampStringLocation := none,
    User := "", Password := "", Charset := "", Flavor := "", Addr := "",
    IncludeTableRegex := [], ExcludeTableRegex := [],
    Dump := DumpConfig.zero,
    ReadTimeout := 0, HeartbeatPeriod := 0, MaxReconnectAttempts := 0,
    ServerID := 0,
    ParseTime := false, SemiSyncEnabled := false,
    DiscardNoMetaRowEvent := false, DisableRetrySync := false,
    UseDecimal := false }

/-! ## Imported packages -/

/-- Value of `time.Now()`: the wall clock reading, whole seconds since the
epoch and the nanoseconds within the second. -/
structure Time where
  sec : Int
  nsec : Nat
  deriving DecidableEq, Repr

/-- Go `(Time).Unix`: the seconds since the epoch, the sub-second part
dropped. -/
def Time.Unix (t : Time) : Int := t.sec

/-- The part of `math/rand` the file calls: `NewSource(seed)` builds a
generator state from an `int64` seed, `Intn(n)` draws from a state and
advances it. -/
structure MathRand where
  Source : Type
  NewSource : Int → Source
  Intn : Source → Int → Int × Source

/-- Go conversion `uint32(x)` of an `int`: the low 32 bits. -/
def uint32 (x : Int) : Nat := (x % 2 ^ 32).toNat

/-- Addition of two `uint32` values, wrapping at `2^32`. -/
def addU32 (a b : Nat) : Nat := (a + b) % 2 ^ 32

/-! ## NewDefaultConfig (lines 92-109) -/

/-- Go `NewDefaultConfig`. The parameters are what the body reads from its
environment: the constant `mysql.DEFAULT_CHARSET`, the `math/rand` package and
the value of `time.Now()`. -/
def NewDefaultConfig (DEFAULT_CHARSET : String) (R : MathRand) (now : Time) :
    Config :=
  let c := Config.zero
  let c := { c with Addr := "127.0.0.1:3306" }
  let c := { c with User := "root" }
  let c := { c with Password := "" }
  let c := { c with Charset := DEFAULT_CHARSET }
  let c := { c with
    ServerID := addU32 (uint32 (R.Intn (R.NewSource now.Unix) 1000).1) 1001 }
  let c := { c with Flavor := "mysql" }
  let c := { c with Dump := { c.Dump with ExecutionPath := "mysqldump" } }
  let c := { c with Dump := { c.Dump with DiscardErr := true } }
  let c := { c with Dump := { c.Dump with SkipMasterData := false } }
  c

/-- A linear congruential generator, used to run the constructors on concrete
inputs. -/
def lcgRand : MathRand :=
  { Source := Nat
    NewSource := fun seed => (seed % 2 ^ 31).toNat
    Intn := fun s n =>
      let s1 : Nat := (s * 1103515245 + 12345) % 2 ^ 31
      (Int.ofNat s1 % n, s1) }

/-! ## Errors (github.com/pingcap/errors) -/

/-- Go `error` values that this file produces or passes on: one returned by
`ioutil.ReadFile`, one returned by `toml.Decode`, or an error annotated with
the stack of the place that traced it. -/
inductive GoError (ι δ : Type) where
  | readFile (e : ι)
  | decode (e : δ)
  | withStack (err : GoError ι δ)
  deriving DecidableEq, Repr

/-- Go `errors.HasStack`: whether the error already carries a stack. -/
def HasStack {ι δ : Type} : GoError ι δ → Bool
  | .withStack _ => true
  | _ => false

/-- Go `errors.AddStack`: annotate with a stack unless one is there. -/
def AddStack {ι δ : Type} (err : GoError ι δ) : GoError ι δ :=
  if HasStack err then err else .withStack err

/-- Go `errors.Trace`: nil stays nil, any other error gets a stack. -/
def Trace {ι δ : Type} : Option (GoError ι δ) → Option (GoError ι δ)
  | none => none
  | some err => some (AddStack err)

/-- Go `errors.Cause`: the innermost error under the annotations. -/
def Cause {ι δ : Type} : GoError ι δ → GoError ι δ
  | .withStack err => Cause err
  | err => err

/-! ## NewConfig and NewConfigWithFile (lines 72-90) -/

/-- Calls into the imported packages, in the order they are made. -/
inductive Call where
  | ReadFile (name : String)
  | Decode (data : String)
  deriving DecidableEq, Repr

/-- Outcome of a constructor: the returned pair `(*Config, error)` and the
library calls made on the way. -/
structure Result (ι δ : Type) where
  cfg : Option Config
  err : Option (GoError ι δ)
  calls : List Call

/-- Contents of a file as `ioutil.ReadFile` returns them (`[]byte`). -/
abbrev Bytes := String

/-- Go conversion `string(data)` of a `[]byte`: the same bytes. -/
def string (data : Bytes) : String := data

/-- Go `NewConfig`. `Decode data c` stands for `toml.Decode(data, &c)`: it
returns `c` as the decoder leaves it and the decoder's error. -/
def NewConfig {ι δ : Type} (Decode : String → Config → Config × Option δ)
    (data : String) : Result ι δ :=
  let c := Config.zero
  let (c, err) := Decode data c
  match err with
  | some e =>
      { cfg := none, err := Trace (some (.decode e)), calls := [.Decode data] }
  | none => { cfg := some c, err := none, calls := [.Decode data] }

/-- Go `NewConfigWithFile`. `ReadFile name` stands for `ioutil.ReadFile(name)`
and returns the pair `(data, err)`. -/
def NewConfigWithFile {ι δ : Type} (ReadFile : String → Bytes × Option ι)
    (Decode : String → Config → Config × Option δ) (name : String) :
    Result ι δ :=
  let (data, err) := ReadFile name
  match err with
  | some e =>
      { cfg := none, err := Trace (some (.readFile e)),
        calls := [.ReadFile name] }
  | none =>
      let r : Result ι δ := NewConfig Decode (string data)
      { r with calls := .ReadFile name :: r.calls }

/-! ## A small decoder and file system, to run the constructors -/

/-- Split a text at line feeds. -/
def splitLines : List Char → List (List Char)
  | [] => [[]]
  | c :: cs =>
      if c = '\n' then [] :: splitLines cs
      else
        match splitLines cs with
        | [] => [[c]]
        | l :: ls => (c :: l) :: ls

/-- Read a line of the form `key = "value"`. -/
def parseAssign (line : List Char) : Option (String × String) :=
  match line.dropWhile (fun ch => ch != ' ') with
  | ' ' :: '=' :: ' ' :: '"' :: v =>
      if v.getLast? = some '"' then
        some (String.mk (line.takeWhile (fun ch => ch != ' ')),
              String.mk v.dropLast)
      else none
  | _ => none

/-- Store a string value under the `toml` key of lines 43-47; other keys are
ignored. -/
def assignField (c : Config) (k v : String) : Config :=
  if k = "user" then { c with User := v }
  else if k = "password" then { c with Password := v }
  else if k = "charset" then { c with Charset := v }
  else if k = "flavor" then { c with Flavor := v }
  else if k = "addr" then { c with Addr := v }
  else c

/-- Decode line by line, stopping at the first line that is not an
assignment; what was stored before that line stays stored. -/
def sampleDecodeLines : List (List Char) → Config → Config × Option String
  | [], c => (c, none)
  | l :: ls, c =>
      if l = [] then sampleDecodeLines ls c
      else
        match parseAssign l with
        | none => (c, some "expected key = \"value\"")
        | some (k, v) => sampleDecodeLines ls (assignField c k v)

/-- A decoder for documents of string assignments to top-level keys. -/
def sampleDecode (data : String) (c : Config) : Config × Option String :=
  sampleDecodeLines (splitLines data.toList) c

/-- A file system with one file. -/
def sampleReadFile (name : String) : Bytes × Option String :=
  if name = "canal.toml" then ("addr = \"10.0.0.1:3306\"", none)
  else ("", some "no such file or directory")

/-! ## Table filter over IncludeTableRegex and ExcludeTableRegex

`config.go` declares the two pattern lists and documents their meaning
(lines 48-52); the function that evaluates them is not part of this file. -/

/-- Regular expressions over characters. -/
inductive Re where
  | void
  | eps
  | chr (c : Char)
  | dot
  | any
  | alt (r s : Re)
  | cat (r s : Re)
  | star (r : Re)
  deriving DecidableEq, Repr

/-- Whether the expression accepts the empty text. -/
def Re.nullable : Re → Bool
  | .void => false
  | .eps => true
  | .chr _ => false
  | .dot => false
  | .any => false
  | .alt r s => r.nullable || s.nullable
  | .cat r s => r.nullable && s.nullable
  | .star _ => true

/-- Alternation that drops a `void` branch. -/
def Re.mkAlt (r s : Re) : Re :=
  match r, s with
  | .void, s => s
  | r, .void => r
  | r, s => .alt r s

/-- Concatenation that collapses on `void` and drops a leading `eps`. -/
def Re.mkCat (r s : Re) : Re :=
  match r, s with
  | .void, _ => .void
  | _, .void => .void
  | .eps, s => s
  | r, s => .cat r s

/-- Derivative of an expression by one character. `dot` is every character
but the line feed, `any` is every character. -/
def Re.deriv (a : Char) : Re → Re
  | .void => .void
  | .eps => .void
  | .chr c => if c = a then .eps else .void
  | .dot => if a = '\n' then .void else .eps
  | .any => .eps
  | .alt r s => Re.mkAlt (r.deriv a) (s.deriv a)
  | .cat r s =>
      if r.nullable then Re.mkAlt (Re.mkCat (r.deriv a) s) (s.deriv a)
      else Re.mkCat (r.deriv a) s
  | .star r => Re.mkCat (r.deriv a) (.star r)

/-- Whether the expression accepts the whole text. -/
def Re.accepts (r : Re) : List Char → Bool
  | [] => r.nullable
  | a :: as => (r.deriv a).accepts as

/-- Whether the expression accepts some contiguous part of the text: patterns
are not anchored. -/
def Re.find (r : Re) (s : List Char) : Bool :=
  (Re.cat (.star .any) (.cat r (.star .any))).accepts s

/-- One open group while reading a pattern: the alternatives already closed
and the current concatenation, last item first. -/
structure Frame where
  alts : List Re
  seq : List Re

/-- Concatenation of the items of a frame, in reading order. -/
def Frame.body (f : Frame) : Re :=
  f.seq.foldl (fun acc r => Re.cat r acc) Re.eps

/-- Expression of a finished group. -/
def Frame.close (f : Frame) : Re :=
  f.alts.foldl (fun acc r => Re.alt r acc) f.body

/-- Characters with a meaning of their own in a pattern. -/
def isMeta (c : Char) : Bool :=
  c ∈ ['\\', '.', '+', '*', '?', '(', ')', '|', '[', ']', '{', '}', '^', '$']

/-- Apply a repetition operator to the last item read. -/
def repeatLast (op : Re → Re) (f : Frame) : Option Frame :=
  match f.seq with
  | [] => none
  | r :: rs => some { f with seq := op r :: rs }

/-- Read a pattern made of literal characters, `.`, escaped punctuation,
`*`, `+`, `?`, `|` and groups. Anything else is refused. -/
def parseRe : List Char → Frame → List Frame → Option Re
  | [], f, [] => some f.close
  | [], _, _ :: _ => none
  | '\\' :: c :: cs, f, st =>
      if isMeta c then parseRe cs { f with seq := Re.chr c :: f.seq } st
      else none
  | c :: cs, f, st =>
      if c = '(' then parseRe cs ⟨[], []⟩ (f :: st)
      else if c = ')' then
        match st with
        | [] => none
        | p :: st1 => parseRe cs { p with seq := f.close :: p.seq } st1
      else if c = '|' then parseRe cs ⟨f.body :: f.alts, []⟩ st
      else if c = '*' then
        (repeatLast Re.star f).bind (fun g => parseRe cs g st)
      else if c = '+' then
        (repeatLast (fun r => Re.cat r (Re.star r)) f).bind
          (fun g => parseRe cs g st)
      else if c = '?' then
        (repeatLast (fun r => Re.alt r Re.eps) f).bind
          (fun g => parseRe cs g st)
      else if c = '.' then parseRe cs { f with seq := Re.dot :: f.seq } st
      else if isMeta c then none
      else parseRe cs { f with seq := Re.chr c :: f.seq } st

/-- Modelled from the spec: the regular-expression engine that matches a
pattern against a qualified name is not in `config.go`. Section 4.4 asks for
unanchored matching; this matcher implements it for the patterns `parseRe`
reads and answers `false` on any other pattern. -/
def MatchString (pattern name : String) : Bool :=
  match parseRe pattern.toList ⟨[], []⟩ [] with
  | none => false
  | some r => r.find name.toList

/-- Modelled from the spec: the qualified name `<database>.<table>` that the
patterns are matched against. -/
def qualifiedName (database table : String) : String :=
  database ++ "." ++ table

/-- Modelled from the spec: the filter evaluation of sections 3 and 4.4, whose
function is not in `config.go`. A name is eligible when the include list is
empty or one of its patterns matches, and the exclude list is empty or none of
its patterns matches; each scan stops at the first match. `M` is the
matcher. -/
def eligible (M : String → String → Bool) (c : Config) (name : String) :
    Bool :=
  (c.IncludeTableRegex.isEmpty || c.IncludeTableRegex.any (fun p => M p name))
    && (c.ExcludeTableRegex.isEmpty
        || !(c.ExcludeTableRegex.any (fun p => M p name)))

/-! ## Properties of NewDefaultConfig -/

/-- C1: whenever the draw `n` of `Intn(1000)` satisfies `0 ≤ n < 1000`, the
`ServerID` of the default configuration is `n + 1001`, the `uint32` addition
does not wrap, and `1001 ≤ ServerID ≤ 2000`. -/
theorem NewDefaultConfig_serverID_range (cs : String) (R : MathRand)
    (now : Time)
    (h0 : 0 ≤ (R.Intn (R.NewSource now.Unix) 1000).1)
    (h1 : (R.Intn (R.NewSource now.Unix) 1000).1 < 1000) :
    ((NewDefaultConfig cs R now).ServerID : Int)
        = (R.Intn (R.NewSource now.Unix) 1000).1 + 1001
      ∧ 1001 ≤ (NewDefaultConfig cs R now).ServerID
      ∧ (NewDefaultConfig cs R now).ServerID ≤ 2000 := by
  have key : ((NewDefaultConfig cs R now).ServerID : Int)
      = (R.Intn (R.NewSource now.Unix) 1000).1 + 1001 := by
    simp only [NewDefaultConfig, addU32, uint32]
    generalize (R.Intn (R.NewSource now.Unix) 1000).1 = n at h0 h1
    omega
  refine ⟨key, ?_, ?_⟩ <;> omega

/-- The range of C1 at the seed 1700000000 with the generator `lcgRand`. -/
theorem NewDefaultConfig_serverID_range_witness :
    (0 ≤ (lcgRand.Intn (lcgRand.NewSource (Time.mk 1700000000 0).Unix) 1000).1
      ∧ (lcgRand.Intn (lcgRand.NewSource (Time.mk 1700000000 0).Unix) 1000).1
          < 1000)
    ∧ (((NewDefaultConfig "utf8" lcgRand (Time.mk 1700000000 0)).ServerID : Int)
        = (lcgRand.Intn (lcgRand.NewSource (Time.mk 1700000000 0).Unix) 1000).1
            + 1001
      ∧ 1001 ≤ (NewDefaultConfig "utf8" lcgRand (Time.mk 1700000000 0)).ServerID
      ∧ (NewDefaultConfig "utf8" lcgRand (Time.mk 1700000000 0)).ServerID
          ≤ 2000) :=
  ⟨⟨by decide, by decide⟩,
   NewDefaultConfig_serverID_range "utf8" lcgRand (Time.mk 1700000000 0)
     (by decide) (by decide)⟩

/-- C2: for every charset constant, generator and clock reading, the default
configuration has `Addr = "127.0.0.1:3306"`, `User = "root"`, an empty
`Password`, `Charset = mysql.DEFAULT_CHARSET`, `Flavor = "mysql"`,
`Dump.ExecutionPath = "mysqldump"`, `Dump.DiscardErr = true` and
`Dump.SkipMasterData = false`. -/
theorem NewDefaultConfig_fixed_fields (cs : String) (R : MathRand)
    (now : Time) :
    (NewDefaultConfig cs R now).Addr = "127.0.0.1:3306"
      ∧ (NewDefaultConfig cs R now).User = "root"
      ∧ (NewDefaultConfig cs R now).Password = ""
      ∧ (NewDefaultConfig cs R now).Charset = cs
      ∧ (NewDefaultConfig cs R now).Flavor = "mysql"
      ∧ (NewDefaultConfig cs R now).Dump.ExecutionPath = "mysqldump"
      ∧ (NewDefaultConfig cs R now).Dump.DiscardErr = true
      ∧ (NewDefaultConfig cs R now).Dump.SkipMasterData = false :=
  ⟨rfl, rfl, rfl, rfl, rfl, rfl, rfl, rfl⟩

/-- C3: every field of the default configuration other than `Addr`, `User`,
`Charset`, `ServerID`, `Flavor`, `Dump.ExecutionPath` and `Dump.DiscardErr`
has its zero value. -/
theorem NewDefaultConfig_other_fields_zero (cs : String) (R : MathRand)
    (now : Time) :
    (NewDefaultConfig cs R now).TLSConfig = none
      ∧ (NewDefaultConfig cs R now).TimestampStringLocation = none
      ∧ (NewDefaultConfig cs R now).Password = ""
      ∧ (NewDefaultConfig cs R now).IncludeTableRegex = []
      ∧ (NewDefaultConfig cs R now).ExcludeTableRegex = []
      ∧ (NewDefaultConfig cs R now).ReadTimeout = 0
      ∧ (NewDefaultConfig cs R now).HeartbeatPeriod = 0
      ∧ (NewDefaultConfig cs R now).MaxReconnectAttempts = 0
      ∧ (NewDefaultConfig cs R now).ParseTime = false
      ∧ (NewDefaultConfig cs R now).SemiSyncEnabled = false
      ∧ (NewDefaultConfig cs R now).DiscardNoMetaRowEvent = false
      ∧ (NewDefaultConfig cs R now).DisableRetrySync = false
      ∧ (NewDefaultConfig cs R now).UseDecimal = false
      ∧ (NewDefaultConfig cs R now).Dump.TableDB = ""
      ∧ (NewDefaultConfig cs R now).Dump.Protocol = ""
      ∧ (NewDefaultConfig cs R now).Dump.Where = ""
      ∧ (NewDefaultConfig cs R now).Dump.Tables = []
      ∧ (NewDefaultConfig cs R now).Dump.IgnoreTables = []
      ∧ (NewDefaultConfig cs R now).Dump.Databases = []
      ∧ (NewDefaultConfig cs R now).Dump.ExtraOptions = []
      ∧ (NewDefaultConfig cs R now).Dump.MaxAllowedPacketMB = 0
      ∧ (NewDefaultConfig cs R now).Dump.SkipMasterData = false :=
  ⟨rfl, rfl, rfl, rfl, rfl, rfl, rfl, rfl, rfl, rfl, rfl, rfl, rfl, rfl, rfl,
   rfl, rfl, rfl, rfl, rfl, rfl, rfl⟩

/-- C10: two calls that read the same Unix second from the clock return equal
configurations, whatever the sub-second parts of the two readings; in
particular the two `ServerID`s are equal. -/
theorem NewDefaultConfig_depends_on_unix_second (cs : String) (R : MathRand)
    (t1 t2 : Time) (h : t1.Unix = t2.Unix) :
    NewDefaultConfig cs R t1 = NewDefaultConfig cs R t2
      ∧ (NewDefaultConfig cs R t1).ServerID
          = (NewDefaultConfig cs R t2).ServerID := by
  have e : NewDefaultConfig cs R t1 = NewDefaultConfig cs R t2 := by
    simp only [NewDefaultConfig, h]
  exact ⟨e, by rw [e]⟩

/-- C10 at two readings of the second 1700000000, one at its start and one
at its last nanosecond. -/
theorem NewDefaultConfig_depends_on_unix_second_witness :
    (Time.mk 1700000000 0).Unix = (Time.mk 1700000000 999999999).Unix
      ∧ (NewDefaultConfig "utf8" lcgRand (Time.mk 1700000000 0)
            = NewDefaultConfig "utf8" lcgRand (Time.mk 1700000000 999999999)
          ∧ (NewDefaultConfig "utf8" lcgRand (Time.mk 1700000000 0)).ServerID
            = (NewDefaultConfig "utf8" lcgRand
                (Time.mk 1700000000 999999999)).ServerID) :=
  ⟨rfl, NewDefaultConfig_depends_on_unix_second "utf8" lcgRand
    (Time.mk 1700000000 0) (Time.mk 1700000000 999999999) rfl⟩

/-! ## Properties of NewConfig and NewConfigWithFile -/

/-- C4: when the decoder reports an error `e` on a document, `NewConfig`
returns a nil `Config` and a non-nil error whose cause is `e`, whatever the
decoder had already stored before it failed. -/
theorem NewConfig_decode_error (ι δ : Type)
    (Decode : String → Config → Config × Option δ) (data : String) (e : δ)
    (h : (Decode data Config.zero).2 = some e) :
    (NewConfig Decode data : Result ι δ).cfg = none
      ∧ (NewConfig Decode data : Result ι δ).err
          = some (.withStack (.decode e))
      ∧ (NewConfig Decode data : Result ι δ).err ≠ none
      ∧ (∀ err, (NewConfig Decode data : Result ι δ).err = some err →
          Cause err = .decode e) := by
  have hr : (NewConfig Decode data : Result ι δ)
      = { cfg := none, err := some (.withStack (.decode e)),
          calls := [.Decode data] } := by
    simp only [NewConfig, h]
    rfl
  rw [hr]
  refine ⟨rfl, rfl, by simp, ?_⟩
  intro err herr
  simp only [Option.some.injEq] at herr
  subst herr
  rfl

/-- C4 on a document whose second line is malformed: the decoder has stored
`User` when it fails, and `NewConfig` still returns no `Config`. -/
theorem NewConfig_decode_error_witness :
    ((sampleDecode "user = \"bob\"\naddr" Config.zero).2
        = some "expected key = \"value\""
      ∧ (sampleDecode "user = \"bob\"\naddr" Config.zero).1.User = "bob")
    ∧ ((NewConfig sampleDecode "user = \"bob\"\naddr"
          : Result String String).cfg = none
      ∧ (NewConfig sampleDecode "user = \"bob\"\naddr"
          : Result String String).err
          = some (.withStack (.decode "expected key = \"value\""))
      ∧ (NewConfig sampleDecode "user = \"bob\"\naddr"
          : Result String String).err ≠ none
      ∧ (∀ err, (NewConfig sampleDecode "user = \"bob\"\naddr"
          : Result String String).err = some err →
          Cause err = .decode "expected key = \"value\"")) :=
  ⟨⟨by decide, by decide⟩,
   NewConfig_decode_error String String sampleDecode "user = \"bob\"\naddr"
     "expected key = \"value\"" (by decide)⟩

/-- C5: when reading the file fails with `e`, `NewConfigWithFile` returns a
nil `Config` and an error whose cause is the read error `e`; the only library
call made is the read, so the decoder is not invoked and the error is never a
decode error. -/
theorem NewConfigWithFile_read_error (ι δ : Type)
    (ReadFile : String → Bytes × Option ι)
    (Decode : String → Config → Config × Option δ) (name : String) (e : ι)
    (h : (ReadFile name).2 = some e) :
    (NewConfigWithFile ReadFile Decode name).cfg = none
      ∧ (NewConfigWithFile ReadFile Decode name).err
          = some (.withStack (.readFile e))
      ∧ (∀ err, (NewConfigWithFile ReadFile Decode name).err = some err →
          Cause err = .readFile e ∧ ∀ d : δ, Cause err ≠ .decode d)
      ∧ (NewConfigWithFile ReadFile Decode name).calls = [.ReadFile name]
      ∧ (∀ data, Call.Decode data
          ∉ (NewConfigWithFile ReadFile Decode name).calls) := by
  have hr : NewConfigWithFile ReadFile Decode name
      = { cfg := none, err := some (.withStack (.readFile e)),
          calls := [.ReadFile name] } := by
    simp only [NewConfigWithFile, h]
    rfl
  rw [hr]
  refine ⟨rfl, rfl, ?_, rfl, ?_⟩
  · intro err herr
    simp only [Option.some.injEq] at herr
    subst herr
    exact ⟨rfl, fun d hd => by simp [Cause] at hd⟩
  · intro data hmem
    simp at hmem

/-- C5 on a path that the sample file system does not hold. -/
theorem NewConfigWithFile_read_error_witness :
    (sampleReadFile "missing.toml").2 = some "no such file or directory"
    ∧ ((NewConfigWithFile sampleReadFile sampleDecode "missing.toml").cfg = none
      ∧ (NewConfigWithFile sampleReadFile sampleDecode "missing.toml").err
          = some (.withStack (.readFile "no such file or directory"))
      ∧ (∀ err,
          (NewConfigWithFile sampleReadFile sampleDecode "missing.toml").err
            = some err →
          Cause err = .readFile "no such file or directory"
            ∧ ∀ d : String, Cause err ≠ .decode d)
      ∧ (NewConfigWithFile sampleReadFile sampleDecode "missing.toml").calls
          = [.ReadFile "missing.toml"]
      ∧ (∀ data, Call.Decode data
          ∉ (NewConfigWithFile sampleReadFile sampleDecode
              "missing.toml").calls)) :=
  ⟨by decide,
   NewConfigWithFile_read_error String String sampleReadFile sampleDecode
     "missing.toml" "no such file or directory" (by decide)⟩

/-- C6: when reading the file succeeds with contents `d`, `NewConfigWithFile`
returns the `Config` and the error that `NewConfig` returns on `string(d)`. -/
theorem NewConfigWithFile_delegates (ι δ : Type)
    (ReadFile : String → Bytes × Option ι)
    (Decode : String → Config → Config × Option δ) (name : String)
    (d : Bytes) (h : ReadFile name = (d, none)) :
    (NewConfigWithFile ReadFile Decode name).cfg
        = (NewConfig Decode (string d) : Result ι δ).cfg
      ∧ (NewConfigWithFile ReadFile Decode name).err
        = (NewConfig Decode (string d) : Result ι δ).err := by
  have hr : NewConfigWithFile ReadFile Decode name
      = { (NewConfig Decode (string d) : Result ι δ) with
          calls := .ReadFile name
            :: (NewConfig Decode (string d) : Result ι δ).calls } := by
    simp only [NewConfigWithFile, h]
  rw [hr]
  exact ⟨rfl, rfl⟩

/-- C6 on the file `canal.toml` of the sample file system. -/
theorem NewConfigWithFile_delegates_witness :
    sampleReadFile "canal.toml" = ("addr = \"10.0.0.1:3306\"", none)
    ∧ ((NewConfigWithFile sampleReadFile sampleDecode "canal.toml").cfg
        = (NewConfig sampleDecode (string "addr = \"10.0.0.1:3306\"")
            : Result String String).cfg
      ∧ (NewConfigWithFile sampleReadFile sampleDecode "canal.toml").err
        = (NewConfig sampleDecode (string "addr = \"10.0.0.1:3306\"")
            : Result String String).err) :=
  ⟨by decide,
   NewConfigWithFile_delegates String String sampleReadFile sampleDecode
     "canal.toml" "addr = \"10.0.0.1:3306\"" (by decide)⟩

/-- C7: on a document the decoder accepts, whatever the decoder leaves
untouched (`proj`, any field or observation of a `Config` that the decoder does
not write for this document) has in the result of `NewConfig` the value it has
in the zero `Config`, because decoding starts from the zero `Config`; and on a
document `doc` for which the decoder writes `Addr = "10.0.0.1:3306"` and
nothing else, the result is the zero `Config` with that `Addr`: `User`,
`Charset`, `Flavor` and `Dump.ExecutionPath` are empty, `ServerID` is 0 and
`Dump.DiscardErr` is false, unlike in the default configuration. -/
theorem NewConfig_absent_keys_zero (ι δ α : Type)
    (Decode : String → Config → Config × Option δ) (data : String)
    (proj : Config → α)
    (hok : (Decode data Config.zero).2 = none)
    (habs : ∀ c, proj (Decode data c).1 = proj c)
    (doc : String)
    (hdoc : ∀ c, Decode doc c = ({ c with Addr := "10.0.0.1:3306" }, none))
    (cs : String) (R : MathRand) (now : Time) :
    (∃ c, (NewConfig Decode data : Result ι δ).cfg = some c
        ∧ proj c = proj Config.zero)
      ∧ (∃ c, (NewConfig Decode doc : Result ι δ).cfg = some c
        ∧ (NewConfig Decode doc : Result ι δ).err = none
        ∧ c = { Config.zero with Addr := "10.0.0.1:3306" }
        ∧ c.Addr = "10.0.0.1:3306" ∧ c.User = "" ∧ c.Charset = ""
        ∧ c.Flavor = "" ∧ c.ServerID = 0 ∧ c.Dump.ExecutionPath = ""
        ∧ c.Dump.DiscardErr = false
        ∧ c.User ≠ (NewDefaultConfig cs R now).User
        ∧ c.Flavor ≠ (NewDefaultConfig cs R now).Flavor
        ∧ c.Dump.ExecutionPath ≠ (NewDefaultConfig cs R now).Dump.ExecutionPath
        ∧ c.Dump.DiscardErr ≠ (NewDefaultConfig cs R now).Dump.DiscardErr) := by
  constructor
  · refine ⟨(Decode data Config.zero).1, ?_, habs Config.zero⟩
    simp only [NewConfig, hok]
  · refine ⟨{ Config.zero with Addr := "10.0.0.1:3306" }, ?_, ?_, rfl, rfl, rfl,
      rfl, rfl, rfl, rfl, rfl, ?_, ?_, ?_, ?_⟩
    · simp only [NewConfig, hdoc]
    · simp only [NewConfig, hdoc]
    · show ("" : String) ≠ "root"
      decide
    · show ("" : String) ≠ "mysql"
      decide
    · show ("" : String) ≠ "mysqldump"
      decide
    · show false ≠ true
      decide

/-- C7 with the sample decoder on the document `addr = "10.0.0.1:3306"`, the
untouched field being `User`. -/
theorem NewConfig_absent_keys_zero_witness :
    ((sampleDecode "addr = \"10.0.0.1:3306\"" Config.zero).2 = none
      ∧ (∀ c, Config.User (sampleDecode "addr = \"10.0.0.1:3306\"" c).1
          = Config.User c)
      ∧ (∀ c, sampleDecode "addr = \"10.0.0.1:3306\"" c
          = ({ c with Addr := "10.0.0.1:3306" }, none)))
    ∧ ((∃ c, (NewConfig sampleDecode "addr = \"10.0.0.1:3306\""
          : Result String String).cfg = some c
        ∧ Config.User c = Config.User Config.zero)
      ∧ (∃ c, (NewConfig sampleDecode "addr = \"10.0.0.1:3306\""
          : Result String String).cfg = some c
        ∧ (NewConfig sampleDecode "addr = \"10.0.0.1:3306\""
          : Result String String).err = none
        ∧ c = { Config.zero with Addr := "10.0.0.1:3306" }
        ∧ c.Addr = "10.0.0.1:3306" ∧ c.User = "" ∧ c.Charset = ""
        ∧ c.Flavor = "" ∧ c.ServerID = 0 ∧ c.Dump.ExecutionPath = ""
        ∧ c.Dump.DiscardErr = false
        ∧ c.User
            ≠ (NewDefaultConfig "utf8" lcgRand (Time.mk 1700000000 0)).User
        ∧ c.Flavor
            ≠ (NewDefaultConfig "utf8" lcgRand (Time.mk 1700000000 0)).Flavor
        ∧ c.Dump.ExecutionPath
            ≠ (NewDefaultConfig "utf8" lcgRand
                (Time.mk 1700000000 0)).Dump.ExecutionPath
        ∧ c.Dump.DiscardErr
            ≠ (NewDefaultConfig "utf8" lcgRand
                (Time.mk 1700000000 0)).Dump.DiscardErr)) :=
  ⟨⟨by decide, fun _ => rfl, fun _ => rfl⟩,
   NewConfig_absent_keys_zero String String String sampleDecode
     "addr = \"10.0.0.1:3306\"" Config.User (by decide) (fun _ => rfl)
     "addr = \"10.0.0.1:3306\"" (fun _ => rfl)
     "utf8" lcgRand (Time.mk 1700000000 0)⟩

/-- C8: `NewConfig` returns an error exactly when the decoder does, and a nil
`Config` exactly then; when the decoder accepts the document the result is the
decoded `Config`, unchanged and unchecked, with a nil error. -/
theorem NewConfig_fails_iff_decoder_fails (ι δ : Type)
    (Decode : String → Config → Config × Option δ) (data : String) :
    ((NewConfig Decode data : Result ι δ).err ≠ none
        ↔ (Decode data Config.zero).2 ≠ none)
      ∧ ((NewConfig Decode data : Result ι δ).cfg = none
        ↔ (Decode data Config.zero).2 ≠ none)
      ∧ ((Decode data Config.zero).2 = none →
          (NewConfig Decode data : Result ι δ).cfg
              = some (Decode data Config.zero).1
            ∧ (NewConfig Decode data : Result ι δ).err = none) := by
  cases hd : (Decode data Config.zero).2 with
  | none =>
      have hr : (NewConfig Decode data : Result ι δ)
          = { cfg := some (Decode data Config.zero).1, err := none,
              calls := [.Decode data] } := by
        simp only [NewConfig, hd]
      rw [hr]
      simp
  | some e =>
      have hr : (NewConfig Decode data : Result ι δ)
          = { cfg := none, err := some (.withStack (.decode e)),
              calls := [.Decode data] } := by
        simp only [NewConfig, hd]
        rfl
      rw [hr]
      simp

/-- C8 on the empty document: the decoder accepts it, and `NewConfig` returns
the zero `Config`, with its empty `Addr` and its `ServerID` of 0, and no
error. -/
theorem NewConfig_fails_iff_decoder_fails_witness :
    (sampleDecode "" Config.zero).2 = none
      ∧ (sampleDecode "" Config.zero).1.Addr = ""
      ∧ (sampleDecode "" Config.zero).1.ServerID = 0
      ∧ ((NewConfig sampleDecode "" : Result String String).cfg
            = some (sampleDecode "" Config.zero).1
          ∧ (NewConfig sampleDecode "" : Result String String).err = none) :=
  ⟨by decide, by decide, by decide,
   (NewConfig_fails_iff_decoder_fails String String sampleDecode "").2.2
     (by decide)⟩

/-! ## Properties of the table filter -/

/-- C9: for every matcher, `Config` and name, the name is eligible exactly
when (the include list is empty or one of its patterns matches the name) and
(the exclude list is empty or none of its patterns matches the name); with
`IncludeTableRegex = [".*\\.canal"]` and `ExcludeTableRegex = ["mysql\\..*"]`
the name `app.canal` is eligible while `mysql.canal` and `app.other` are not;
with both lists empty every name is eligible. -/
theorem eligible_iff_include_and_not_exclude :
    (∀ (M : String → String → Bool) (c : Config) (name : String),
        eligible M c name = true ↔
          (c.IncludeTableRegex = []
              ∨ ∃ p ∈ c.IncludeTableRegex, M p name = true)
            ∧ (c.ExcludeTableRegex = []
              ∨ ∀ p ∈ c.ExcludeTableRegex, M p name = false))
      ∧ (∀ c : Config, c.IncludeTableRegex = [".*\\.canal"] →
          c.ExcludeTableRegex = ["mysql\\..*"] →
          eligible MatchString c (qualifiedName "app" "canal") = true
            ∧ eligible MatchString c (qualifiedName "mysql" "canal") = false
            ∧ eligible MatchString c (qualifiedName "app" "other") = false)
      ∧ (∀ (M : String → String → Bool) (c : Config) (name : String),
          c.IncludeTableRegex = [] → c.ExcludeTableRegex = [] →
          eligible M c name = true) := by
  refine ⟨?_, ?_, ?_⟩
  · intro M c name
    simp only [eligible, Bool.and_eq_true, Bool.or_eq_true, List.isEmpty_iff,
      List.any_eq_true, Bool.not_eq_true', List.any_eq_false,
      Bool.not_eq_true]
  · intro c hinc hexc
    simp only [eligible, hinc, hexc]
    decide
  · intro M c name hinc hexc
    simp [eligible, hinc, hexc]

end canal
